import Mathlib

/-!
Shallow embedding of `bsl::allocator` (bslstl_allocator.h) and the
address-of helper (bsls_util.h).

Mechanism pointers (`bslma::Allocator *`) are modelled as natural numbers,
with `0` standing for the null pointer.  The platform's `std::size_t` is an
unsigned integer of `wordBits` bits; `bslma::Allocator::size_type` has the
same width but may be signed (on the real platform it is signed, per the
comment in `allocator<T>::allocate`); its signedness is a platform
parameter, exactly as the source computes it generically from
`~bslma::Allocator::size_type(0) < 0`.
-/

namespace BslAlloc

/-- Platform integer parameters: the bit width of `std::size_t`, and
whether `bslma::Allocator::size_type` (same width) is a signed type. -/
structure Platform where
  wordBits : Nat
  bslmaSigned : Bool
deriving DecidableEq, Repr

/-- The value `~std::size_t(0)`: all bits set, i.e. `2 ^ wordBits - 1`. -/
def maxSizeT (P : Platform) : Nat := 2 ^ P.wordBits - 1

/-- Two's-complement reinterpretation of a `wordBits`-bit unsigned value as
a signed value of the same width. -/
def toSigned (W : Nat) (v : Nat) : Int :=
  if v < 2 ^ (W - 1) then (v : Int) else (v : Int) - 2 ^ W

/-- The conversion `bslma::Allocator::size_type(v)` applied to a `size_t`
value `v`: identity if that type is unsigned, two's-complement
reinterpretation if it is signed. -/
def sizeTypeCast (P : Platform) (v : Nat) : Int :=
  if P.bslmaSigned then toSigned P.wordBits v else (v : Int)

/-- The element type an allocator is instantiated over: `void` (the
degenerate `allocator<void>` specialization) or an object type known to the
embedding only through its size `sizeof(T)`. -/
inductive ElemType where
  | void : ElemType
  | sized : Nat → ElemType
deriving DecidableEq, Repr

/-- Embeds `bsl::allocator<T>` (and its `allocator<void>` specialization): the
single data member `d_mechanism` holds the address of the mechanism
object. -/
structure allocator (τ : ElemType) where
  d_mechanism : Nat
deriving DecidableEq, Repr

/-- Accessor `allocator<T>::mechanism()`: return `d_mechanism`. -/
def allocator.mechanism (a : allocator τ) : Nat := a.d_mechanism

/-- Modelled from the spec: `bslma::Default::defaultAllocator()`
(bslma_default.h is not part of the sources at hand) reads the currently
installed process-wide default mechanism from the registry. -/
def defaultAllocator (registry : Nat) : Nat := registry

/-- Modelled from the spec: `bslma::Default::allocator(m)` (bslma_default.h
is not part of the sources at hand) returns `m` when `m` is non-null and
the currently installed default mechanism otherwise. -/
def defaultOrCurrent (registry m : Nat) : Nat :=
  if m = 0 then defaultAllocator registry else m

/-- Default constructor `allocator<T>::allocator()`: binds to
`bslma::Default::defaultAllocator()`. -/
def allocator.mkDefault (τ : ElemType) (registry : Nat) : allocator τ :=
  ⟨defaultAllocator registry⟩

/-- Constructor `allocator<T>::allocator(bslma::Allocator *mechanism)`:
binds to `bslma::Default::allocator(mechanism)`. -/
def allocator.ofMech (τ : ElemType) (registry m : Nat) : allocator τ :=
  ⟨defaultOrCurrent registry m⟩

/-- Copy constructor `allocator<T>::allocator(const allocator& rhs)`:
binds to `rhs.mechanism()`. -/
def allocator.copy (rhs : allocator τ) : allocator τ :=
  ⟨rhs.mechanism⟩

/-- Converting constructor
`allocator<T>::allocator(const allocator<U>& rhs)` (and the corresponding
`allocator<void>` constructors): binds to `rhs.mechanism()`. -/
def allocator.convert (υ : ElemType) (rhs : allocator τ) : allocator υ :=
  ⟨rhs.mechanism⟩

/-- Compiler-generated copy assignment `operator=(const allocator& rhs)`:
copies the sole data member `d_mechanism`. -/
def allocator.assign (lhs rhs : allocator τ) : allocator τ :=
  ⟨rhs.d_mechanism⟩

/-- Free operator
`operator==(const allocator<T1>& lhs, const allocator<T2>& rhs)`:
`lhs.mechanism() == rhs.mechanism()`. -/
def allocEq (a : allocator τ) (b : allocator υ) : Bool :=
  a.mechanism == b.mechanism

/-- Free operator `operator!=`: `!(lhs == rhs)`. -/
def allocNe (a : allocator τ) (b : allocator υ) : Bool :=
  ! (allocEq a b)

/-- Constant `BSLMA_SIZE_IS_SIGNED = ~bslma::Allocator::size_type(0) < 0` from
`allocator<T>::max_size`: true exactly when that type is signed. -/
def BSLMA_SIZE_IS_SIGNED (P : Platform) : Bool := P.bslmaSigned

/-- Constant `MAX_NUM_BYTES = ~std::size_t(0) / (BSLMA_SIZE_IS_SIGNED ? 2 : 1)`
from `allocator<T>::max_size`. -/
def MAX_NUM_BYTES (P : Platform) : Nat :=
  maxSizeT P / (if BSLMA_SIZE_IS_SIGNED P then 2 else 1)

/-- Accessor `allocator<T>::max_size()`:
`MAX_NUM_ELEMENTS = std::size_t(MAX_NUM_BYTES) / sizeof(T)`, with
`sizeof(T) = s`. -/
def max_size (P : Platform) (s : Nat) : Nat :=
  MAX_NUM_BYTES P / s

/-- The condition of the debug-build assertion
`BSLS_ASSERT_SAFE(n <= this->max_size())` in `allocator<T>::allocate`. -/
def allocateAssertOk (P : Platform) (s n : Nat) : Bool :=
  decide (n ≤ max_size P s)

/-- A mechanism object (an object of a concrete class derived from
`bslma::Allocator`), seen through its virtual interface: `allocFn` takes a
byte count (a `bslma::Allocator::size_type` value) and the mechanism's
current state and returns the address of the new block together with the
new state; `deallocFn` takes a block address and the state and returns the
new state. -/
structure Mechanism where
  allocFn : Int → Nat → Nat × Nat
  deallocFn : Nat → Nat → Nat

/-- Result of `allocator<T>::allocate`: the returned pointer (the
mechanism's result converted by `static_cast<pointer>`, numerically the
same address), the mechanism's state afterwards, and the list of byte
counts forwarded to the mechanism's `allocate` during the call. -/
structure AllocOutcome where
  ptr : Nat
  mechState : Nat
  forwarded : List Int
deriving DecidableEq, Repr

/-- Manipulator `allocator<T>::allocate(n, hint)` with `sizeof(T) = s`: computes
`n * sizeof(T)` in `std::size_t` arithmetic (hence the reduction modulo
`2 ^ wordBits`), converts it to `bslma::Allocator::size_type`, passes the
result to `d_mechanism->allocate`, and returns the mechanism's result cast
to `pointer`.  `heap` maps a mechanism address to the mechanism object it
designates; `hint` is ignored (`(void) hint`), with `0` for the default
null argument. -/
def allocate (P : Platform) (s : Nat) (a : allocator (ElemType.sized s))
    (heap : Nat → Mechanism) (st : Nat) (n : Nat) (hint : Nat) :
    AllocOutcome :=
  let bytes : Nat := n * s % 2 ^ P.wordBits
  let c : Int := sizeTypeCast P bytes
  let r := (heap a.mechanism).allocFn c st
  ⟨r.1, r.2, [c]⟩

/-- Manipulator `allocator<T>::deallocate(p, n)`: forwards `p` to
`d_mechanism->deallocate`; `n` is ignored (`(void) n`). -/
def deallocate (s : Nat) (a : allocator (ElemType.sized s))
    (heap : Nat → Mechanism) (st : Nat) (p n : Nat) : Nat :=
  (heap a.mechanism).deallocFn p st

/-- The raw storage / object map: which address currently holds a live
object of the element type, and with what value. -/
def ObjStore (V : Type) : Type := Nat → Option V

/-- Result of `allocator<T>::construct` or `allocator<T>::destroy`: the
proxy object after the (non-const) member call, the object map after the
call, and the calls made on the mechanism during the call. -/
structure OpResult (τ : ElemType) (V : Type) where
  self : allocator τ
  store : ObjStore V
  calls : List Int × List Nat

/-- Manipulator `allocator<T>::construct(p, val)`:
`new(static_cast<void*>(p)) T(val)` — begins the lifetime of a `T` at
address `p` holding a copy of `val`; the mechanism is not invoked (the
first component of `calls` lists byte counts passed to the mechanism's
`allocate`, the second lists addresses passed to its `deallocate`). -/
def construct (a : allocator τ) (st : ObjStore V) (p : Nat) (v : V) :
    OpResult τ V :=
  ⟨a, fun q => if q = p then some v else st q, ([], [])⟩

/-- Manipulator `allocator<T>::destroy(p)`: `p->~T()` ends the lifetime of the `T`
at address `p` without releasing storage; the mechanism is not invoked. -/
def destroy (a : allocator τ) (st : ObjStore V) (p : Nat) :
    OpResult τ V :=
  ⟨a, fun q => if q = p then none else st q, ([], [])⟩

/-- The effect of a sequence of mechanism calls on a counting mechanism's
outstanding-block counter (cf. `my_CountingAllocator` in the component
documentation): each `allocate` increments it, each `deallocate`
decrements it. -/
def blocksAfter (c : Int) (calls : List Int × List Nat) : Int :=
  c + calls.1.length - calls.2.length

/-- A reference to an object of some element type: its storage address,
and, when the type redefines `operator&`, the value that redefined
operation yields (`none` when `operator&` is the built-in one). -/
structure ObjRef where
  storageAddr : Nat
  addrOverload : Option Nat
deriving DecidableEq, Repr

/-- The expression `&x`: applies the type's `operator&` overload when
there is one, the built-in address-of otherwise. -/
def amp (x : ObjRef) : Nat :=
  match x.addrOverload with
  | some r => r
  | none => x.storageAddr

/-- The view `reinterpret_cast<const volatile char&>(obj)` taken in
`bsls::Util::addressOf`: same storage, and `char` has no `operator&`
overload. -/
def asCharRef (x : ObjRef) : ObjRef :=
  ⟨x.storageAddr, none⟩

/-- Helper `bsls::Util::addressOf(obj)`: take the built-in address of the `char`
view of the object's storage and cast it back (the casts
`const_cast<char*>`, `static_cast<void*>`, `static_cast<BSLS_TYPE*>`
preserve the address). -/
def addressOfUtil (x : ObjRef) : Nat :=
  amp (asCharRef x)

/-- The macro `BSLS_UTIL_ADDRESSOF(OBJ)`: `bsls::Util::addressOf(OBJ)`
when the compiler is MSVC, the plain expression `&(OBJ)` otherwise. -/
def BSLS_UTIL_ADDRESSOF (msvc : Bool) (x : ObjRef) : Nat :=
  if msvc then addressOfUtil x else amp x

/-- Accessor `allocator<T>::address(x)` (both the `reference` and the
`const_reference` overload): `BSLS_UTIL_ADDRESSOF(x)`. -/
def address (msvc : Bool) (a : allocator τ) (x : ObjRef) : Nat :=
  BSLS_UTIL_ADDRESSOF msvc x

/-- A concrete platform for instantiating theorems: 8-bit `std::size_t`,
signed `bslma::Allocator::size_type`. -/
def demoPlatform : Platform := ⟨8, true⟩

/-- A concrete mechanism object for instantiating theorems: hands out
addresses `100`, `101`, ... in order. -/
def demoMech : Mechanism :=
  ⟨fun _ st => (100 + st, st + 1), fun _ st => st⟩

/-- A concrete mechanism heap where every address designates
`demoMech`. -/
def demoHeap : Nat → Mechanism := fun _ => demoMech

lemma MAX_NUM_BYTES_lt_pow (P : Platform) :
    MAX_NUM_BYTES P < 2 ^ P.wordBits := by
  have h1 : maxSizeT P < 2 ^ P.wordBits :=
    Nat.sub_lt (pow_pos (by norm_num) _) one_pos
  exact lt_of_le_of_lt (Nat.div_le_self _ _) h1

lemma MAX_NUM_BYTES_signed_lt (P : Platform) (hb : P.bslmaSigned = true) :
    MAX_NUM_BYTES P < 2 ^ (P.wordBits - 1) := by
  have hpos : 0 < 2 ^ (P.wordBits - 1) := pow_pos (by norm_num) _
  rw [MAX_NUM_BYTES, BSLMA_SIZE_IS_SIGNED, hb, if_pos rfl]
  rw [Nat.div_lt_iff_lt_mul (by norm_num)]
  rcases hW : P.wordBits with _ | k
  · simp [maxSizeT, hW]
  · have hk : 0 < 2 ^ k := pow_pos (by norm_num) _
    simp only [maxSizeT, hW, Nat.succ_sub_one, pow_succ]
    omega

lemma mul_le_bytes_of_le_max_size (P : Platform) (s n : Nat)
    (hn : n ≤ max_size P s) : n * s ≤ MAX_NUM_BYTES P := by
  rcases Nat.eq_zero_or_pos s with hs | hs
  · simp [hs]
  · exact (Nat.le_div_iff_mul_le hs).1 hn

lemma sizeTypeCast_of_le (P : Platform) (v : Nat)
    (hv : v ≤ MAX_NUM_BYTES P) :
    sizeTypeCast P (v % 2 ^ P.wordBits) = (v : Int) := by
  have hlt : v < 2 ^ P.wordBits := lt_of_le_of_lt hv (MAX_NUM_BYTES_lt_pow P)
  rw [Nat.mod_eq_of_lt hlt]
  unfold sizeTypeCast toSigned
  cases hb : P.bslmaSigned
  · simp
  · have hs : v < 2 ^ (P.wordBits - 1) :=
      lt_of_le_of_lt hv (MAX_NUM_BYTES_signed_lt P hb)
    simp [hs]

/-- C1: for all proxies `a` and `b`, possibly instantiated over different
element types (`void` included), `a == b` holds iff `a.mechanism()` and
`b.mechanism()` are the identical mechanism pointer. -/
theorem allocator_eq_iff_same_mechanism (τ υ : ElemType)
    (a : allocator τ) (b : allocator υ) :
    allocEq a b = true ↔ a.mechanism = b.mechanism := by
  simp [allocEq]

/-- C2: constructing a proxy from a mechanism pointer `m` yields
`mechanism() == m` when `m` is non-null and the registry's current default
when `m` is null; default construction binds to the current default. -/
theorem allocator_ctor_mechanism (τ : ElemType) (registry m : Nat) :
    (allocator.ofMech τ registry m).mechanism
        = (if m = 0 then registry else m) ∧
    (allocator.mkDefault τ registry).mechanism = registry := by
  refine ⟨?_, rfl⟩
  by_cases h : m = 0 <;>
    simp [allocator.ofMech, allocator.mechanism, defaultOrCurrent,
          defaultAllocator, h]

/-- C3: copy construction and converting construction (between any element
types, `void` included) bind the new proxy to exactly the source's
mechanism, the new proxy compares equal to the source, and converting
`T -> U -> T` yields a proxy equal to the original. -/
theorem allocator_copy_convert_preserve (τ υ : ElemType)
    (a : allocator τ) :
    (allocator.copy a).mechanism = a.mechanism ∧
    (allocator.convert υ a).mechanism = a.mechanism ∧
    allocEq (allocator.copy a) a = true ∧
    allocEq (allocator.convert υ a) a = true ∧
    allocEq (allocator.convert τ (allocator.convert υ a)) a = true := by
  refine ⟨rfl, rfl, ?_, ?_, ?_⟩ <;>
    simp [allocEq, allocator.copy, allocator.convert, allocator.mechanism]

/-- C4: `max_size()` for element size `s` equals `(~0)/s` computed over the
unsigned size-counting type, halved when the mechanism's count type is
signed; for a 1-byte element type it equals the maximum representable
unsigned count, or half of it under a signed count type. -/
theorem max_size_formula (P : Platform) (s : Nat) :
    max_size P s
        = (if P.bslmaSigned then maxSizeT P / s / 2 else maxSizeT P / s) ∧
    max_size P 1
        = (if P.bslmaSigned then maxSizeT P / 2 else maxSizeT P) := by
  constructor
  · have hdd : maxSizeT P / 2 / s = maxSizeT P / s / 2 := by
      rw [Nat.div_div_eq_div_mul, Nat.div_div_eq_div_mul, Nat.mul_comm]
    unfold max_size MAX_NUM_BYTES BSLMA_SIZE_IS_SIGNED
    cases hb : P.bslmaSigned <;> simp [hdd]
  · unfold max_size MAX_NUM_BYTES BSLMA_SIZE_IS_SIGNED
    cases hb : P.bslmaSigned <;> simp

/-- C10: `allocate(n, hint)` is insensitive to the hint argument: for any
two hints, the calls forward the identical byte count to the mechanism and
return the identical result given the same mechanism state. -/
theorem allocate_hint_noninterference (P : Platform) (s : Nat)
    (a : allocator (ElemType.sized s)) (heap : Nat → Mechanism)
    (st n h₁ h₂ : Nat) :
    allocate P s a heap st n h₁ = allocate P s a heap st n h₂ := rfl

/-- C5: under the precondition `n <= max_size()`, `allocate(n)` forwards to
the mechanism's `allocate` exactly the byte count `n * sizeof(T)`,
converted (value-preservingly) to the mechanism's own count type, and
returns the mechanism's result cast to a pointer to `T`. -/
theorem allocate_forwards_exact_byte_count (P : Platform) (s : Nat)
    (a : allocator (ElemType.sized s)) (heap : Nat → Mechanism)
    (st n hint : Nat) (hs : 0 < s) (hn : n ≤ max_size P s) :
    (allocate P s a heap st n hint).forwarded = [((n * s : Nat) : Int)] ∧
    (allocate P s a heap st n hint).ptr
        = ((heap a.mechanism).allocFn ((n * s : Nat) : Int) st).1 ∧
    (allocate P s a heap st n hint).mechState
        = ((heap a.mechanism).allocFn ((n * s : Nat) : Int) st).2 := by
  have hb : n * s ≤ MAX_NUM_BYTES P := mul_le_bytes_of_le_max_size P s n hn
  have hc := sizeTypeCast_of_le P (n * s) hb
  unfold allocate
  simp [hc]

/-- C5 witness: 3 elements of a 4-byte type on the 8-bit signed-count
platform forward exactly 12 bytes. -/
theorem allocate_forwards_exact_byte_count_witness :
    (allocate demoPlatform 4 (⟨7⟩ : allocator (ElemType.sized 4))
        demoHeap 0 3 0).forwarded = [((3 * 4 : Nat) : Int)] ∧
    (allocate demoPlatform 4 (⟨7⟩ : allocator (ElemType.sized 4))
        demoHeap 0 3 0).ptr
      = ((demoHeap (allocator.mechanism (⟨7⟩ : allocator (ElemType.sized 4)))).allocFn
          ((3 * 4 : Nat) : Int) 0).1 ∧
    (allocate demoPlatform 4 (⟨7⟩ : allocator (ElemType.sized 4))
        demoHeap 0 3 0).mechState
      = ((demoHeap (allocator.mechanism (⟨7⟩ : allocator (ElemType.sized 4)))).allocFn
          ((3 * 4 : Nat) : Int) 0).2 :=
  allocate_forwards_exact_byte_count demoPlatform 4 ⟨7⟩ demoHeap 0 3 0
    (by decide) (by decide)

/-- C6: for every `n <= max_size()`, the product `n * sizeof(T)` is
representable in the unsigned size-counting type without wraparound, its
conversion to the mechanism's count type is non-negative and
value-preserving (so it fits the non-negative range when that type is
signed), and the debug-build assertion `n <= max_size()` holds. -/
theorem allocate_product_no_overflow (P : Platform) (s n : Nat)
    (hs : 0 < s) (hn : n ≤ max_size P s) :
    n * s % 2 ^ P.wordBits = n * s ∧
    (0 : Int) ≤ sizeTypeCast P (n * s) ∧
    sizeTypeCast P (n * s) = ((n * s : Nat) : Int) ∧
    allocateAssertOk P s n = true := by
  have hb : n * s ≤ MAX_NUM_BYTES P := mul_le_bytes_of_le_max_size P s n hn
  have hlt : n * s < 2 ^ P.wordBits :=
    lt_of_le_of_lt hb (MAX_NUM_BYTES_lt_pow P)
  have hmod : n * s % 2 ^ P.wordBits = n * s := Nat.mod_eq_of_lt hlt
  have hc : sizeTypeCast P (n * s) = ((n * s : Nat) : Int) := by
    have := sizeTypeCast_of_le P (n * s) hb
    rwa [hmod] at this
  refine ⟨hmod, ?_, hc, ?_⟩
  · rw [hc]; exact Int.ofNat_nonneg _
  · simp [allocateAssertOk, hn]

/-- C6 witness: 3 elements of a 4-byte type on the 8-bit signed-count
platform. -/
theorem allocate_product_no_overflow_witness :
    3 * 4 % 2 ^ demoPlatform.wordBits = 3 * 4 ∧
    (0 : Int) ≤ sizeTypeCast demoPlatform (3 * 4) ∧
    sizeTypeCast demoPlatform (3 * 4) = ((3 * 4 : Nat) : Int) ∧
    allocateAssertOk demoPlatform 4 3 = true :=
  allocate_product_no_overflow demoPlatform 4 3 (by decide) (by decide)

/-- C7: after any of the four constructors, `mechanism()` is non-null
provided the default-mechanism registry yields a non-null mechanism and
any source proxy satisfies the invariant; whole-object assignment and the
member operations `construct` and `destroy` preserve it. -/
theorem allocator_mechanism_nonnull (τ υ : ElemType) (registry m : Nat)
    (a : allocator υ) (b c : allocator τ) (V : Type) (stV : ObjStore V)
    (p : Nat) (v : V)
    (hreg : 0 < registry) (ha : 0 < a.mechanism) (hc : 0 < c.mechanism) :
    0 < (allocator.mkDefault τ registry).mechanism ∧
    0 < (allocator.ofMech τ registry m).mechanism ∧
    0 < (allocator.copy a).mechanism ∧
    0 < (allocator.convert τ a).mechanism ∧
    0 < (allocator.assign b c).mechanism ∧
    0 < ((construct c stV p v).self).mechanism ∧
    0 < ((destroy c stV p).self).mechanism := by
  refine ⟨hreg, ?_, ha, ha, hc, hc, hc⟩
  by_cases h : m = 0 <;>
    simp [allocator.ofMech, allocator.mechanism, defaultOrCurrent,
          defaultAllocator, h] <;> omega

/-- C7 witness: concrete registry, mechanisms, and proxies. -/
theorem allocator_mechanism_nonnull_witness :
    0 < (allocator.mkDefault (ElemType.sized 1) 5).mechanism ∧
    0 < (allocator.ofMech (ElemType.sized 1) 5 0).mechanism ∧
    0 < (allocator.copy (⟨3⟩ : allocator ElemType.void)).mechanism ∧
    0 < (allocator.convert (ElemType.sized 1)
          (⟨3⟩ : allocator ElemType.void)).mechanism ∧
    0 < (allocator.assign (⟨4⟩ : allocator (ElemType.sized 1))
          (⟨6⟩ : allocator (ElemType.sized 1))).mechanism ∧
    0 < ((construct (⟨6⟩ : allocator (ElemType.sized 1))
          (fun _ => (none : Option Nat)) 0 0).self).mechanism ∧
    0 < ((destroy (⟨6⟩ : allocator (ElemType.sized 1))
          (fun _ => (none : Option Nat)) 0).self).mechanism :=
  allocator_mechanism_nonnull ElemType.void (ElemType.sized 1) 5 0
    ⟨3⟩ ⟨4⟩ ⟨6⟩ Nat (fun _ => none) 0 0 (by decide) (by decide) (by decide)

/-- C8: `construct(p, v)` followed by `destroy(p)` never invokes the
mechanism: `construct` begins the lifetime of a copy of `v` at `p` with no
allocation, `destroy` ends it with no deallocation, the proxy's mechanism
binding is unchanged, and a counting mechanism's outstanding-block
accounting is unchanged by the pair. -/
theorem construct_destroy_no_mechanism_calls (τ : ElemType) (V : Type)
    (a : allocator τ) (st : ObjStore V) (p : Nat) (v : V) (c : Int) :
    (construct a st p v).calls = ([], []) ∧
    (destroy (construct a st p v).self (construct a st p v).store p).calls
        = ([], []) ∧
    (construct a st p v).store p = some v ∧
    (destroy (construct a st p v).self (construct a st p v).store p).store
        = (fun q => if q = p then none else st q) ∧
    (destroy (construct a st p v).self (construct a st p v).store p).self
        = a ∧
    blocksAfter (blocksAfter c (construct a st p v).calls)
        (destroy (construct a st p v).self (construct a st p v).store p).calls
        = c := by
  refine ⟨rfl, rfl, by simp [construct], ?_, rfl, ?_⟩
  · funext q
    by_cases h : q = p <;> simp [construct, destroy, h]
  · simp [construct, destroy, blocksAfter]

/-- C9 counterexample: on a non-MSVC platform, for an object of a type that
redefines `operator&` to yield address 2 while its true storage address is
1, `address(x)` returns 2, not the storage address — the macro
`BSLS_UTIL_ADDRESSOF` expands to plain `&(OBJ)` there, bypassing the
helper. -/
theorem address_overload_counterexample :
    decide (address false (⟨5⟩ : allocator (ElemType.sized 1))
        (⟨1, some 2⟩ : ObjRef)
      = (⟨1, some 2⟩ : ObjRef).storageAddr) = false := by decide

/-- C9 (amended): `address(x)` returns the true storage address whenever
the compiler is MSVC (where it routes through the helper, which bypasses
any `operator&` redefinition) or the type does not redefine the address-of
operation; the helper itself always returns the storage address. -/
theorem address_returns_storage_address (msvc : Bool) (τ : ElemType)
    (a : allocator τ) (x : ObjRef)
    (h : msvc = true ∨ x.addrOverload = none) :
    address msvc a x = x.storageAddr ∧
    addressOfUtil x = x.storageAddr := by
  refine ⟨?_, rfl⟩
  rcases h with h | h
  · subst h
    rfl
  · cases msvc <;>
      simp [address, BSLS_UTIL_ADDRESSOF, addressOfUtil, asCharRef, amp, h]

/-- C9 witness: on MSVC, the true storage address is returned even for the
type that redefines `operator&`. -/
theorem address_returns_storage_address_witness :
    address true (⟨5⟩ : allocator (ElemType.sized 1))
        (⟨1, some 2⟩ : ObjRef)
      = (⟨1, some 2⟩ : ObjRef).storageAddr ∧
    addressOfUtil (⟨1, some 2⟩ : ObjRef)
      = (⟨1, some 2⟩ : ObjRef).storageAddr :=
  address_returns_storage_address true (ElemType.sized 1) ⟨5⟩ ⟨1, some 2⟩
    (Or.inl rfl)

end BslAlloc
